import Mathlib

/-!
Verification of the layout directive compiler of `sphinx_design/grids.py`:
the responsive breakpoint-option encoder (`_media_option` and its three call
sites) and the component-tree builders (`GridDirective.run`,
`GridItemCardDirective.run`).

Helpers imported from `sphinx_design/shared.py` and `sphinx_design/cards.py`
(`create_component`, `is_component`, `make_choice`, `WARNING_TYPE`,
`CardDirective.create_card`) are not part of the sources being verified; they
are modelled from the specification and marked as such in their doc comments.
-/

set_option autoImplicit false

namespace SphinxDesign

/-! ## Python string primitives used by `_media_option` -/

/-- Whitespace splitting of a list of characters, accumulating the current
token in reverse.  Runs of whitespace are separators; no empty tokens are
produced.  This is the behaviour of Python `str.split()` with no argument
(restricted to ASCII whitespace). -/
def pySplitChars : List Char → List Char → List String
  | [], acc => if acc.isEmpty then [] else [⟨acc.reverse⟩]
  | c :: cs, acc =>
    if c.isWhitespace then
      if acc.isEmpty then pySplitChars cs [] else (⟨acc.reverse⟩ : String) :: pySplitChars cs []
    else pySplitChars cs (c :: acc)

/-- Python `argument.strip().split()`: split on runs of whitespace, ignoring
leading and trailing whitespace (so the preceding `.strip()` is a no-op for
the result). -/
def pySplit (s : String) : List String := pySplitChars s.toList []

/-- Value of a decimal digit character. -/
def digitVal (c : Char) : Nat := c.toNat - 48

/-- Continue parsing a run of decimal digits in which single underscores may
separate digits (Python `int` literal grammar: `digit (["_"] digit)*`).
`acc` is the value of the digits consumed so far. -/
def digitsVal : List Char → Nat → Option Nat
  | [], acc => some acc
  | '_' :: c :: rest, acc =>
    if c.isDigit then digitsVal rest (acc * 10 + digitVal c) else none
  | c :: rest, acc =>
    if c.isDigit then digitsVal rest (acc * 10 + digitVal c) else none

/-- Parse an unsigned decimal integer: a digit followed by digits optionally
separated by single underscores. -/
def parseUDigits : List Char → Option Nat
  | [] => none
  | c :: rest => if c.isDigit then digitsVal rest (digitVal c) else none

/-- Python `int(value)` on a token containing no whitespace: an optional sign
followed by decimal digits (single underscores allowed between digits);
`none` models the `ValueError` the conversion raises otherwise. -/
def pyInt (s : String) : Option Int :=
  match s.toList with
  | '+' :: rest => (parseUDigits rest).map Int.ofNat
  | '-' :: rest => (parseUDigits rest).map (fun n => -(Int.ofNat n : Int))
  | l => (parseUDigits l).map Int.ofNat

/-! ## The breakpoint option encoder (`_media_option`, grids.py lines 35-70) -/

/-- Failure of `_media_option`.  The source raises `ValueError` with one fixed
message from two kinds of site: the argument-count checks (missing argument or
a token count other than 1 or 4) and the per-token value checks (not `auto`
when allowed, not an integer, or out of range).  The spec names these
`InvalidOptionArity` and `InvalidOptionValue`. -/
inductive MediaError where
  | arity (msg : String)
  | value (msg : String)
deriving DecidableEq, Repr

/-- The single diagnostic message of `_media_option` (grids.py lines 47-50):
it is built from the `allow_auto` flag and the accepted range only. -/
def validate_error_msg (allow_auto : Bool) (min_num max_num : Int) : String :=
  "argument must be 1 or 4 (xs sm md lg) values, and each value should be "
    ++ (if allow_auto then "either auto or " else "")
    ++ "an integer from " ++ toString min_num ++ " to " ++ toString max_num

/-- The per-token test of the loop in `_media_option` (grids.py lines 58-66):
a token passes when it is the literal `auto` (if `allow_auto`) or parses as an
integer within `[min_num, max_num]`. -/
def checkValue (allow_auto : Bool) (min_num max_num : Int) (value : String) : Bool :=
  if allow_auto && value == "auto" then true
  else
    match pyInt value with
    | none => false
    | some n => decide (min_num ≤ n) && decide (n ≤ max_num)

/-- `_media_option(argument, prefix, allow_auto=…, min_num=…, max_num=…)`
(grids.py lines 35-70).  Whitespace-split the argument; broadcast a single
token to all four breakpoints; reject any other count than 4 after the
broadcast; check every token; emit the unqualified token from the first value
followed by the four breakpoint-qualified tokens. -/
def _media_option (argument : Option String) (pfx : String) (allow_auto : Bool)
    (min_num max_num : Int) : Except MediaError (List String) :=
  let msg := validate_error_msg allow_auto min_num max_num
  match argument with
  | none => .error (.arity msg)
  | some arg =>
    let values0 := pySplit arg
    let values := match values0 with
      | [v] => [v, v, v, v]
      | vs => vs
    match values with
    | [a, b, c, d] =>
      if [a, b, c, d].all (checkValue allow_auto min_num max_num) then
        .ok ([pfx ++ a] ++
          (List.zip ["xs", "sm", "md", "lg"] [a, b, c, d]).map
            (fun sv => pfx ++ sv.1 ++ "-" ++ sv.2))
      else .error (.value msg)
    | _ => .error (.arity msg)

/-- `row_columns_option` (grids.py lines 73-78). -/
def row_columns_option (argument : Option String) : Except MediaError (List String) :=
  _media_option argument "sd-row-cols-" true 1 12

/-- `item_columns_option` (grids.py lines 81-86). -/
def item_columns_option (argument : Option String) : Except MediaError (List String) :=
  _media_option argument "sd-col-" true 1 12

/-- `gutter_option` (grids.py lines 89-94). -/
def gutter_option (argument : Option String) : Except MediaError (List String) :=
  _media_option argument "sd-g-" false 0 5

/-! ## Component nodes and warnings -/

/-- A component node: `kind`, ordered style-token list, ordered children. -/
inductive Component where
  | mk (kind : String) (classes : List String) (children : List Component)

/-- The `kind` of a component node. -/
def Component.kind : Component → String
  | .mk k _ _ => k

/-- The style tokens of a component node. -/
def Component.classes : Component → List String
  | .mk _ cs _ => cs

/-- The children of a component node. -/
def Component.children : Component → List Component
  | .mk _ _ ch => ch

/-- Modelled from the spec: `WARNING_TYPE` from `shared.py` (not under src/);
the spec gives warning records the type tag `layout`. -/
def WARNING_TYPE : String := "layout"

/-- Modelled from the spec: `create_component` from `shared.py` (not under
src/) creates a component node of the given kind carrying the given style
tokens and no children yet. -/
def create_component (name : String) (classes : List String) : Component :=
  .mk name classes []

/-- Modelled from the spec: `is_component` from `shared.py` (not under src/)
tests whether a node is a component node of the given kind. -/
def is_component (node : Component) (name : String) : Bool :=
  node.kind == name

/-- Source location carried by a warning record: either an offending node
(`location=item`) or a document position (`location=(docname, lineno)`). -/
inductive Location where
  | node (c : Component)
  | pos (docname : String) (lineno : Nat)

/-- A warning record `{message, type, subtype, location}` sent to the
diagnostic sink. -/
structure Warning where
  message : String
  location : Location
  type : String
  subtype : String

/-- Errors that abort a directive invocation: an option-validation failure
(hard compile error) or `assert_has_content` firing on empty content. -/
inductive DirectiveError where
  | optionError (e : MediaError)
  | noContent

/-! ## `GridDirective.run` (grids.py lines 114-152) -/

/-- The validated option namespace of a `grid` directive: each converted
option is present or absent; `outline` is a presence-only flag. -/
structure GridOptions where
  gutter : Option (List String)
  margin : Option (List String)
  padding : Option (List String)
  text_align : Option (List String)
  outline : Bool
  class_container : Option (List String)
  class_row : Option (List String)

/-- Token list of the `grid-container` node (grids.py lines 120-129). -/
def grid_container_classes (options : GridOptions) : List String :=
  ["sd-container-fluid", "sd-sphinx-override"]
    ++ options.margin.getD ["sd-mb-4"]
    ++ options.padding.getD []
    ++ options.text_align.getD []
    ++ (if options.outline then ["sd-border-1"] else [])
    ++ options.class_container.getD []

/-- The warning emitted for a non-`grid-item` child of a `grid-row`
(grids.py lines 144-150); its location is the offending node. -/
def rowChildWarning (item : Component) : Warning :=
  { message := "All children of a \x27grid-row\x27 should be \x27grid-item\x27 ["
      ++ WARNING_TYPE ++ ".grid]"
    location := .node item
    type := WARNING_TYPE
    subtype := "grid" }

/-- The child-checking loop of `GridDirective.run` (grids.py lines 142-151):
walk the row's children in order; at the first child that is not a
`grid-item`, emit one warning and `break`. -/
def checkRowChildren : List Component → List Warning
  | [] => []
  | item :: rest =>
    if is_component item "grid-item" then checkRowChildren rest
    else [rowChildWarning item]

/-- `GridDirective.run` (grids.py lines 114-152).  `nested_parse` is the
host's nested-content processor (external collaborator): the children it
produces from the content block are attached to the row node.  Returns the
emitted warnings together with the node list `[container]`. -/
def GridDirective_run (nested_parse : List String → List Component)
    (arguments : List String) (options : GridOptions) (content : List String) :
    Except DirectiveError (List Warning × List Component) :=
  match (match arguments with
         | a :: _ => row_columns_option (some a)
         | [] => .ok []) with
  | .error e => .error (.optionError e)
  | .ok column_classes =>
    if content.isEmpty then .error .noContent
    else
      let container := create_component "grid-container" (grid_container_classes options)
      let row0 := create_component "grid-row"
        (["sd-row"] ++ column_classes ++ options.gutter.getD [] ++ options.class_row.getD [])
      let row := Component.mk row0.kind row0.classes (nested_parse content)
      let container := Component.mk container.kind container.classes
        (container.children ++ [row])
      .ok (checkRowChildren row.children, [container])

/-! ## `GridItemCardDirective.run` (grids.py lines 199-267) -/

/-- A validated option value in the `grid-item-card` option namespace: either
a plain string (uris, choices, the forced width) or a token list (class
lists, spacing, columns). -/
inductive OptVal where
  | str (s : String)
  | toks (l : List String)
deriving DecidableEq, Repr

/-- The option namespace as the Python `dict` it is: an association list with
first-occurrence lookup. -/
def dictLookup (d : List (String × OptVal)) (k : String) : Option OptVal :=
  match d with
  | [] => none
  | (k2, v) :: rest => if k2 == k then some v else dictLookup rest k

/-- Python `d[k] = v`: overwrite the entry for `k` if present, append it
otherwise. -/
def dictSet (d : List (String × OptVal)) (k : String) (v : OptVal) : List (String × OptVal) :=
  match d with
  | [] => [(k, v)]
  | (k2, v2) :: rest => if k2 == k then (k, v) :: rest else (k2, v2) :: dictSet rest k v

/-- Python `d.get(k, [])` for a token-list-valued option. -/
def dictGetToks (d : List (String × OptVal)) (k : String) : List String :=
  match dictLookup d k with
  | some (.toks l) => l
  | _ => []

/-- The card-level option names forwarded to the card builder
(grids.py lines 248-261). -/
def card_option_keys : List String :=
  ["text-align", "img-top", "img-bottom", "link", "link-type", "shadow",
   "class-card", "class-body", "class-title", "class-header", "class-footer"]

/-- The option namespace handed to `CardDirective.create_card`
(grids.py lines 245-264): the card-level options filtered out of the
directive's options, then `width` forced to `"100%"` and `margin` forced to
the empty token list. -/
def GridItemCardDirective_cardOptions (options : List (String × OptVal)) :
    List (String × OptVal) :=
  dictSet
    (dictSet (options.filter (fun kv => card_option_keys.contains kv.1))
      "width" (.str "100%"))
    "margin" (.toks [])

/-- The warning emitted when the parent of a `grid-item` is not a `grid-row`
(grids.py lines 228-233); its location is the document position. -/
def itemParentWarning (docname : String) (lineno : Nat) : Warning :=
  { message := "The parent of a \x27grid-item\x27 should be a \x27grid-row\x27 ["
      ++ WARNING_TYPE ++ ".grid]"
    location := .pos docname lineno
    type := WARNING_TYPE
    subtype := "grid" }

/-- `GridItemCardDirective.run` (grids.py lines 224-267).  `create_card` is
`CardDirective.create_card` from `cards.py` (not under src/), the card
building collaborator of the spec, kept opaque: it receives the directive's
arguments and the forced card option namespace.  `parent` is the enclosing
node (`self.state_machine.node`); the parent check precedes construction. -/
def GridItemCardDirective_run
    (create_card : List String → List (String × OptVal) → Component)
    (parent : Component) (arguments : List String)
    (options : List (String × OptVal)) (content : List String)
    (docname : String) (lineno : Nat) :
    Except DirectiveError (List Warning × List Component) :=
  if content.isEmpty then .error .noContent
  else
    let warnings :=
      if is_component parent "grid-row" then [] else [itemParentWarning docname lineno]
    let column0 := create_component "grid-item"
      (["sd-col", "sd-d-flex"]
        ++ dictGetToks options "columns"
        ++ dictGetToks options "margin"
        ++ dictGetToks options "padding"
        ++ dictGetToks options "class-item")
    let card := create_card arguments (GridItemCardDirective_cardOptions options)
    let column := Component.mk column0.kind column0.classes (column0.children ++ [card])
    .ok (warnings, [column])

/-! ## Closed-choice validators (grids.py lines 214-215) -/

/-- The data an `InvalidChoice` failure carries: the received value and the
allowed set. -/
structure ChoiceError where
  received : String
  allowed : List String
deriving DecidableEq, Repr

/-- Modelled from the spec: `make_choice` from `shared.py` (not under src/)
builds a closed-choice validator that accepts exactly the declared values and
fails with `InvalidChoice`, carrying the received value and the allowed set,
for any other value. -/
def make_choice (choices : List String) (argument : String) : Except ChoiceError String :=
  if choices.contains argument then .ok argument else .error ⟨argument, choices⟩

/-- The `link-type` option validator of `GridItemCardDirective.option_spec`
(grids.py line 214). -/
def link_type_choice : String → Except ChoiceError String :=
  make_choice ["url", "any", "ref", "doc"]

/-- The `shadow` option validator of `GridItemCardDirective.option_spec`
(grids.py line 215). -/
def shadow_choice : String → Except ChoiceError String :=
  make_choice ["none", "sm", "md", "lg"]

/-! ## Substring test (used to examine diagnostic messages) -/

/-- `needle` starts the list `hay`. -/
def startsWithChars : List Char → List Char → Bool
  | [], _ => true
  | _ :: _, [] => false
  | a :: as, b :: bs => a == b && startsWithChars as bs

/-- `needle` occurs as a contiguous substring of `hay`. -/
def containsSub (hay needle : List Char) : Bool :=
  (List.range (hay.length + 1)).any (fun i => startsWithChars needle (hay.drop i))

instance {ε α : Type} [DecidableEq ε] [DecidableEq α] : DecidableEq (Except ε α) :=
  fun x y =>
    match x, y with
    | .ok a, .ok b =>
      if h : a = b then .isTrue (by rw [h]) else .isFalse (fun hc => h (Except.ok.inj hc))
    | .ok _, .error _ => .isFalse (fun hc => Except.noConfusion hc)
    | .error _, .ok _ => .isFalse (fun hc => Except.noConfusion hc)
    | .error e, .error f =>
      if h : e = f then .isTrue (by rw [h]) else .isFalse (fun hc => h (Except.error.inj hc))

/-! ## Theorems: the breakpoint option encoder -/

/-- The token list built at grids.py lines 67-70, unrolled. -/
theorem media_output_eq (pfx a b c d : String) :
    [pfx ++ a] ++ (List.zip ["xs", "sm", "md", "lg"] [a, b, c, d]).map
      (fun sv => pfx ++ sv.1 ++ "-" ++ sv.2)
    = [pfx ++ a, pfx ++ "xs-" ++ a, pfx ++ "sm-" ++ b, pfx ++ "md-" ++ c, pfx ++ "lg-" ++ d] := by
  have h1 : "xs" ++ "-" = "xs-" := rfl
  have h2 : "sm" ++ "-" = "sm-" := rfl
  have h3 : "md" ++ "-" = "md-" := rfl
  have h4 : "lg" ++ "-" = "lg-" := rfl
  simp only [List.zip, List.zipWith, List.map]
  rw [String.append_assoc pfx "xs" "-", h1, String.append_assoc pfx "sm" "-", h2,
      String.append_assoc pfx "md" "-", h3, String.append_assoc pfx "lg" "-", h4]
  rfl

/-- A list of length 4 has exactly four elements. -/
theorem length_eq_four {α : Type} {l : List α} (h : l.length = 4) :
    ∃ a b c d, l = [a, b, c, d] := by
  match l with
  | [a, b, c, d] => exact ⟨a, b, c, d, rfl⟩
  | [] | [_] | [_, _] | [_, _, _] => simp at h
  | _ :: _ :: _ :: _ :: _ :: rest => simp at h

/-- C1: for every valid input to the breakpoint encoder with prefix `pfx`, a
single in-range token `v` yields exactly the five tokens
`[pfx+v, pfx+xs-v, pfx+sm-v, pfx+md-v, pfx+lg-v]` in that order, and four
valid tokens `(a, b, c, d)` yield exactly
`[pfx+a, pfx+xs-a, pfx+sm-b, pfx+md-c, pfx+lg-d]`: the unqualified token
always derives from the first value. -/
theorem C1_encoder_token_order (pfx : String) (aa : Bool) (mn mx : Int) :
    (∀ v arg, pySplit arg = [v] → checkValue aa mn mx v = true →
      _media_option (some arg) pfx aa mn mx =
        .ok [pfx ++ v, pfx ++ "xs-" ++ v, pfx ++ "sm-" ++ v, pfx ++ "md-" ++ v,
             pfx ++ "lg-" ++ v]) ∧
    (∀ a b c d arg, pySplit arg = [a, b, c, d] →
      checkValue aa mn mx a = true → checkValue aa mn mx b = true →
      checkValue aa mn mx c = true → checkValue aa mn mx d = true →
      _media_option (some arg) pfx aa mn mx =
        .ok [pfx ++ a, pfx ++ "xs-" ++ a, pfx ++ "sm-" ++ b, pfx ++ "md-" ++ c,
             pfx ++ "lg-" ++ d]) := by
  constructor
  · intro v arg hs hv
    rw [← media_output_eq pfx v v v v]
    simp [_media_option, hs, hv]
  · intro a b c d arg hs ha hb hc hd
    rw [← media_output_eq pfx a b c d]
    simp [_media_option, hs, ha, hb, hc, hd]

/-- C1 witness: the encoder evaluated at a concrete single token and at four
concrete tokens. -/
theorem C1_encoder_token_order_witness :
    _media_option (some "3") "sd-col-" true 1 12 =
      .ok ["sd-col-3", "sd-col-xs-3", "sd-col-sm-3", "sd-col-md-3", "sd-col-lg-3"] ∧
    _media_option (some "1 2 3 4") "sd-col-" true 1 12 =
      .ok ["sd-col-1", "sd-col-xs-1", "sd-col-sm-2", "sd-col-md-3", "sd-col-lg-4"] :=
  ⟨(C1_encoder_token_order "sd-col-" true 1 12).1 "3" "3" (by decide) (by decide),
   (C1_encoder_token_order "sd-col-" true 1 12).2 "1" "2" "3" "4" "1 2 3 4"
     (by decide) (by decide) (by decide) (by decide) (by decide)⟩

/-- C5: a missing argument, or an argument that whitespace-splits into any
number of tokens other than exactly 1 or exactly 4, makes the encoder fail
from the argument-count checks (the spec's `InvalidOptionArity`), producing
no token list. -/
theorem C5_arity_failure (pfx : String) (aa : Bool) (mn mx : Int) :
    _media_option none pfx aa mn mx = .error (.arity (validate_error_msg aa mn mx)) ∧
    ∀ arg : String, (pySplit arg).length ≠ 1 → (pySplit arg).length ≠ 4 →
      _media_option (some arg) pfx aa mn mx =
        .error (.arity (validate_error_msg aa mn mx)) := by
  refine ⟨rfl, ?_⟩
  intro arg h1 h4
  match hs : pySplit arg with
  | [] => simp [_media_option, hs]
  | [a] => rw [hs] at h1; simp at h1
  | [a, b] => simp [_media_option, hs]
  | [a, b, c] => simp [_media_option, hs]
  | [a, b, c, d] => rw [hs] at h4; simp at h4
  | a :: b :: c :: d :: e :: rest => simp [_media_option, hs]

/-- C5 witness: the encoder fails on a missing argument and on a two-token
argument. -/
theorem C5_arity_failure_witness :
    _media_option none "sd-g-" false 0 5 = .error (.arity (validate_error_msg false 0 5)) ∧
    _media_option (some "1 2") "sd-g-" false 0 5 =
      .error (.arity (validate_error_msg false 0 5)) :=
  ⟨(C5_arity_failure "sd-g-" false 0 5).1,
   (C5_arity_failure "sd-g-" false 0 5).2 "1 2" (by decide) (by decide)⟩

/-- C6 (amended): in an input of accepted arity, any token that is neither
the literal `auto` (with `allow_auto` set) nor an integer within
`[min_num, max_num]` makes the encoder fail from the per-token value checks
(the spec's `InvalidOptionValue`); the diagnostic message is built from the
allowed range and the auto flag only, and does not include the offending
token. -/
theorem C6_value_failure (pfx : String) (aa : Bool) (mn mx : Int) (arg t : String)
    (hlen : (pySplit arg).length = 1 ∨ (pySplit arg).length = 4)
    (ht : t ∈ pySplit arg) (hbad : checkValue aa mn mx t = false) :
    _media_option (some arg) pfx aa mn mx = .error (.value (validate_error_msg aa mn mx)) := by
  rcases hlen with h | h
  · obtain ⟨v, hs⟩ := List.length_eq_one.mp h
    rw [hs] at ht
    obtain rfl := List.mem_singleton.mp ht
    simp [_media_option, hs, hbad]
  · obtain ⟨a, b, c, d, hs⟩ := length_eq_four h
    rw [hs] at ht
    simp only [List.mem_cons, List.not_mem_nil, or_false] at ht
    rcases ht with rfl | rfl | rfl | rfl
    · simp [_media_option, hs, hbad]
    · simp [_media_option, hs, hbad]
    · simp [_media_option, hs, hbad]
    · simp [_media_option, hs, hbad]

/-- C6 witness: the out-of-range token `13` fails the row-columns range
1 to 12. -/
theorem C6_value_failure_witness :
    _media_option (some "13") "sd-row-cols-" true 1 12 =
      .error (.value (validate_error_msg true 1 12)) :=
  C6_value_failure "sd-row-cols-" true 1 12 "13" "13" (Or.inl (by decide))
    (by decide) (by decide)

/-- C6 counterexample: on the out-of-range token `99` the failure carries
only the fixed diagnostic message, and the offending token `99` does not
occur in it, contradicting the claim that the failure carries the offending
token for the diagnostic text. -/
theorem C6_value_failure_cex :
    row_columns_option (some "99") = .error (.value (validate_error_msg true 1 12)) ∧
    containsSub (validate_error_msg true 1 12).toList "99".toList = false :=
  ⟨rfl, rfl⟩

/-- C8 (amended): the three call sites are specializations of `_media_option`
with exactly these parameters: row-column counts use prefix `sd-row-cols-`
with auto allowed and range 1 to 12, item-column spans use prefix `sd-col-`
with auto allowed and range 1 to 12, and gutter sizing uses prefix `sd-g-`
with no auto and range 0 to 5. -/
theorem C8_call_sites (argument : Option String) :
    row_columns_option argument = _media_option argument "sd-row-cols-" true 1 12 ∧
    item_columns_option argument = _media_option argument "sd-col-" true 1 12 ∧
    gutter_option argument = _media_option argument "sd-g-" false 0 5 :=
  ⟨rfl, rfl, rfl⟩

/-- C8 counterexample: the row-columns tokens for the argument `3` carry the
prefix `sd-row-cols-`, not the claimed `row-cols-`. -/
theorem C8_call_sites_cex :
    row_columns_option (some "3") =
      .ok ["sd-row-cols-3", "sd-row-cols-xs-3", "sd-row-cols-sm-3",
           "sd-row-cols-md-3", "sd-row-cols-lg-3"] ∧
    row_columns_option (some "3") ≠
      .ok ["row-cols-3", "row-cols-xs-3", "row-cols-sm-3", "row-cols-md-3",
           "row-cols-lg-3"] := by
  decide

/-! ## Theorems: `GridDirective.run` -/

/-- Shape of every successful `GridDirective.run`: the warnings come from the
child check over the parsed children, and the returned node list is one
container holding one row holding the parsed children. -/
theorem gridRun_ok_shape (np : List String → List Component) (arguments : List String)
    (options : GridOptions) (content : List String) (w : List Warning) (ns : List Component)
    (h : GridDirective_run np arguments options content = .ok (w, ns)) :
    w = checkRowChildren (np content) ∧
    ∃ cc, (match arguments with
           | a :: _ => row_columns_option (some a)
           | [] => Except.ok []) = .ok cc ∧
      ns = [Component.mk "grid-container" (grid_container_classes options)
              [Component.mk "grid-row"
                (["sd-row"] ++ cc ++ options.gutter.getD [] ++ options.class_row.getD [])
                (np content)]] := by
  unfold GridDirective_run at h
  cases hm : (match arguments with
              | a :: _ => row_columns_option (some a)
              | [] => Except.ok ([] : List String)) with
  | error e => rw [hm] at h; simp at h
  | ok cc =>
    rw [hm] at h
    by_cases hc : content.isEmpty
    · simp [hc] at h
    · simp [hc, create_component, Component.kind, Component.classes, Component.children] at h
      obtain ⟨hw, hns⟩ := h
      exact ⟨hw.symm, cc, rfl, by simpa using hns.symm⟩

/-- The child-checking loop stops at the first offending child: on a child
list whose first non-`grid-item` member is `bad`, it emits exactly the one
warning located at `bad`. -/
theorem checkRowChildren_first (pre post : List Component) (bad : Component)
    (hpre : ∀ x ∈ pre, is_component x "grid-item" = true)
    (hbad : is_component bad "grid-item" = false) :
    checkRowChildren (pre ++ bad :: post) = [rowChildWarning bad] := by
  induction pre with
  | nil => simp [checkRowChildren, hbad]
  | cons a l ih =>
    have ha := hpre a (by simp)
    simp only [List.cons_append, checkRowChildren, ha, if_true]
    exact ih (fun x hx => hpre x (by simp [hx]))

/-- C2: when a grid row has children and the first whose kind is not
`grid-item` is `bad`, the directive emits exactly one warning, of type
`layout` and subtype `grid`, located at `bad` - even if further children
after `bad` are also non-conforming - and the tree is still returned. -/
theorem C2_row_first_child_warning (np : List String → List Component)
    (arguments : List String) (options : GridOptions) (content : List String)
    (w : List Warning) (ns : List Component)
    (hrun : GridDirective_run np arguments options content = .ok (w, ns))
    (pre post : List Component) (bad : Component)
    (hsplit : np content = pre ++ bad :: post)
    (hpre : ∀ x ∈ pre, is_component x "grid-item" = true)
    (hbad : is_component bad "grid-item" = false) :
    w = [rowChildWarning bad] ∧
    (rowChildWarning bad).type = WARNING_TYPE ∧
    (rowChildWarning bad).subtype = "grid" ∧
    (rowChildWarning bad).location = .node bad ∧
    ns.length = 1 := by
  obtain ⟨hw, cc, hm, hns⟩ := gridRun_ok_shape np arguments options content w ns hrun
  refine ⟨?_, rfl, rfl, rfl, ?_⟩
  · rw [hw, hsplit]
    exact checkRowChildren_first pre post bad hpre hbad
  · rw [hns]; rfl

/-- C2 witness: a grid whose row receives one `paragraph` child emits exactly
that one warning and still returns the tree. -/
theorem C2_row_first_child_warning_witness :
    [Warning.mk "All children of a \x27grid-row\x27 should be \x27grid-item\x27 [layout.grid]"
        (.node (Component.mk "paragraph" [] [])) "layout" "grid"]
      = [rowChildWarning (Component.mk "paragraph" [] [])] ∧
    (rowChildWarning (Component.mk "paragraph" [] [])).type = WARNING_TYPE ∧
    (rowChildWarning (Component.mk "paragraph" [] [])).subtype = "grid" ∧
    (rowChildWarning (Component.mk "paragraph" [] [])).location
      = .node (Component.mk "paragraph" [] []) ∧
    ([Component.mk "grid-container" ["sd-container-fluid", "sd-sphinx-override", "sd-mb-4"]
        [Component.mk "grid-row" ["sd-row"] [Component.mk "paragraph" [] []]]]
      : List Component).length = 1 :=
  C2_row_first_child_warning (fun _ => [Component.mk "paragraph" [] []]) []
    ⟨none, none, none, none, false, none, none⟩ ["x"]
    [Warning.mk "All children of a \x27grid-row\x27 should be \x27grid-item\x27 [layout.grid]"
        (.node (Component.mk "paragraph" [] [])) "layout" "grid"]
    [Component.mk "grid-container" ["sd-container-fluid", "sd-sphinx-override", "sd-mb-4"]
        [Component.mk "grid-row" ["sd-row"] [Component.mk "paragraph" [] []]]]
    rfl [] [] (Component.mk "paragraph" [] []) rfl (by simp) (by decide)

/-- C7: every node list returned by the grid directive is a single
`grid-container` owning exactly one child, that child is a `grid-row`, and
the row's children are exactly what the nested-content processor produced
from the content - nothing is appended to the container itself. -/
theorem C7_container_single_row (np : List String → List Component)
    (arguments : List String) (options : GridOptions) (content : List String)
    (w : List Warning) (ns : List Component)
    (hrun : GridDirective_run np arguments options content = .ok (w, ns)) :
    ns.length = 1 ∧ ∀ node ∈ ns, node.kind = "grid-container" ∧
      node.children.length = 1 ∧ ∀ ch ∈ node.children, ch.kind = "grid-row" ∧
        ch.children = np content := by
  obtain ⟨hw, cc, hm, hns⟩ := gridRun_ok_shape np arguments options content w ns hrun
  subst hns
  refine ⟨rfl, ?_⟩
  intro node hn
  obtain rfl := List.mem_singleton.mp hn
  refine ⟨rfl, rfl, ?_⟩
  intro ch hc
  obtain rfl := List.mem_singleton.mp hc
  exact ⟨rfl, rfl⟩

/-- C7 witness: a grid built around one `grid-item` child returns one
container with one row child carrying that item. -/
theorem C7_container_single_row_witness :
    ([Component.mk "grid-container" ["sd-container-fluid", "sd-sphinx-override", "sd-mb-4"]
        [Component.mk "grid-row" ["sd-row"] [Component.mk "grid-item" ["sd-col"] []]]]
      : List Component).length = 1 ∧
    ∀ node ∈ ([Component.mk "grid-container"
        ["sd-container-fluid", "sd-sphinx-override", "sd-mb-4"]
        [Component.mk "grid-row" ["sd-row"] [Component.mk "grid-item" ["sd-col"] []]]]
      : List Component), node.kind = "grid-container" ∧
      node.children.length = 1 ∧ ∀ ch ∈ node.children, ch.kind = "grid-row" ∧
        ch.children = [Component.mk "grid-item" ["sd-col"] []] :=
  C7_container_single_row (fun _ => [Component.mk "grid-item" ["sd-col"] []]) []
    ⟨none, none, none, none, false, none, none⟩ ["x"] []
    [Component.mk "grid-container" ["sd-container-fluid", "sd-sphinx-override", "sd-mb-4"]
        [Component.mk "grid-row" ["sd-row"] [Component.mk "grid-item" ["sd-col"] []]]]
    rfl

/-- C10: when no margin option is declared, the container's token list is the
base tokens followed by the default `sd-mb-4` and the remaining option
tokens; when a margin option is declared, its tokens take the default's
place (they replace it, they are not appended to it). -/
theorem C10_default_margin (np : List String → List Component)
    (arguments : List String) (options : GridOptions) (content : List String)
    (w : List Warning) (ns : List Component)
    (hrun : GridDirective_run np arguments options content = .ok (w, ns))
    (node : Component) (hn : node ∈ ns) :
    (options.margin = none → "sd-mb-4" ∈ node.classes ∧
      node.classes = ["sd-container-fluid", "sd-sphinx-override"] ++ ["sd-mb-4"]
        ++ options.padding.getD [] ++ options.text_align.getD []
        ++ (if options.outline then ["sd-border-1"] else [])
        ++ options.class_container.getD []) ∧
    (∀ m, options.margin = some m →
      node.classes = ["sd-container-fluid", "sd-sphinx-override"] ++ m
        ++ options.padding.getD [] ++ options.text_align.getD []
        ++ (if options.outline then ["sd-border-1"] else [])
        ++ options.class_container.getD []) := by
  obtain ⟨hw, cc, hm, hns⟩ := gridRun_ok_shape np arguments options content w ns hrun
  subst hns
  obtain rfl := List.mem_singleton.mp hn
  constructor
  · intro h
    constructor
    · simp [Component.classes, grid_container_classes, h]
    · simp [Component.classes, grid_container_classes, h]
  · intro m h
    simp [Component.classes, grid_container_classes, h]

/-- C10 witness: with no margin option the container carries `sd-mb-4`; with
margin tokens `["sd-m-2"]` the token list holds them in the default's place
and no `sd-mb-4`. -/
theorem C10_default_margin_witness :
    "sd-mb-4" ∈ (Component.mk "grid-container"
        ["sd-container-fluid", "sd-sphinx-override", "sd-mb-4"]
        [Component.mk "grid-row" ["sd-row"] [Component.mk "grid-item" ["sd-col"] []]]).classes ∧
    (Component.mk "grid-container" ["sd-container-fluid", "sd-sphinx-override", "sd-m-2"]
        [Component.mk "grid-row" ["sd-row"] [Component.mk "grid-item" ["sd-col"] []]]).classes
      = ["sd-container-fluid", "sd-sphinx-override", "sd-m-2"] :=
  ⟨((C10_default_margin (fun _ => [Component.mk "grid-item" ["sd-col"] []]) []
      ⟨none, none, none, none, false, none, none⟩ ["x"] []
      [Component.mk "grid-container" ["sd-container-fluid", "sd-sphinx-override", "sd-mb-4"]
          [Component.mk "grid-row" ["sd-row"] [Component.mk "grid-item" ["sd-col"] []]]]
      rfl _ (List.mem_singleton.mpr rfl)).1 rfl).1,
   (C10_default_margin (fun _ => [Component.mk "grid-item" ["sd-col"] []]) []
      ⟨none, some ["sd-m-2"], none, none, false, none, none⟩ ["x"] []
      [Component.mk "grid-container" ["sd-container-fluid", "sd-sphinx-override", "sd-m-2"]
          [Component.mk "grid-row" ["sd-row"] [Component.mk "grid-item" ["sd-col"] []]]]
      rfl _ (List.mem_singleton.mpr rfl)).2 ["sd-m-2"] rfl⟩

/-! ## Theorems: `GridItemCardDirective.run` -/

/-- Looking up the key just written by `dictSet` yields the written value. -/
theorem dictLookup_dictSet_self (d : List (String × OptVal)) (k : String) (v : OptVal) :
    dictLookup (dictSet d k v) k = some v := by
  induction d with
  | nil => simp [dictSet, dictLookup]
  | cons kv rest ih =>
    obtain ⟨k2, v2⟩ := kv
    simp only [dictSet]
    by_cases h : (k2 == k) = true
    · simp [h, dictLookup]
    · simp only [h, if_false, Bool.false_eq_true]
      simp only [Bool.not_eq_true] at h
      simp [dictLookup, h, ih]

/-- `dictSet` leaves lookups of other keys unchanged. -/
theorem dictLookup_dictSet_other (d : List (String × OptVal)) (k k2 : String) (v : OptVal)
    (hne : (k == k2) = false) :
    dictLookup (dictSet d k v) k2 = dictLookup d k2 := by
  induction d with
  | nil => simp [dictSet, dictLookup, hne]
  | cons kv rest ih =>
    obtain ⟨k3, v3⟩ := kv
    simp only [dictSet]
    by_cases h : (k3 == k) = true
    · have hk3 : k3 = k := by simpa using h
      subst hk3
      simp [dictLookup, hne]
    · simp only [h, if_false, Bool.false_eq_true]
      by_cases h2 : (k3 == k2) = true
      · simp [dictLookup, h2]
      · simp only [Bool.not_eq_true] at h2
        simp [dictLookup, h2, ih]

/-- C3: whatever options the author supplies, the option namespace forwarded
to the card builder has `width` forced to `"100%"` and `margin` forced to the
empty token list; no caller-supplied card margin and no other card width
reaches the card builder (the run forwards exactly this namespace, see
`GridItemCardDirective_run`). -/
theorem C3_card_forced_namespace (options : List (String × OptVal)) :
    dictLookup (GridItemCardDirective_cardOptions options) "width" = some (.str "100%") ∧
    dictLookup (GridItemCardDirective_cardOptions options) "margin" = some (.toks []) := by
  unfold GridItemCardDirective_cardOptions
  constructor
  · rw [dictLookup_dictSet_other _ _ _ _ (by decide)]
    exact dictLookup_dictSet_self _ _ _
  · exact dictLookup_dictSet_self _ _ _

/-- C4: a `grid-item-card` whose enclosing parent node is not a `grid-row`
emits the parent-mismatch warning (the check precedes construction in the
source) and nevertheless returns a fully formed `grid-item` node whose sole
child is the node produced by the card builder from the forced card
namespace. -/
theorem C4_card_outside_row (cc : List String → List (String × OptVal) → Component)
    (parent : Component) (arguments : List String) (options : List (String × OptVal))
    (content : List String) (docname : String) (lineno : Nat)
    (w : List Warning) (ns : List Component)
    (hpar : is_component parent "grid-row" = false)
    (hrun : GridItemCardDirective_run cc parent arguments options content docname lineno
      = .ok (w, ns)) :
    w = [itemParentWarning docname lineno] ∧ ns.length = 1 ∧
    ∀ node ∈ ns, node.kind = "grid-item" ∧
      node.children = [cc arguments (GridItemCardDirective_cardOptions options)] := by
  unfold GridItemCardDirective_run at hrun
  by_cases hc : content.isEmpty
  · simp [hc] at hrun
  · simp [hc, hpar, create_component, Component.kind, Component.classes,
      Component.children] at hrun
    obtain ⟨hw, hns⟩ := hrun
    subst hw
    refine ⟨rfl, ?_, ?_⟩
    · rw [← hns]; rfl
    · intro node hn
      rw [← hns] at hn
      obtain rfl := List.mem_singleton.mp hn
      exact ⟨rfl, rfl⟩

/-- C4 witness: a card item built under a `grid-container` parent emits the
warning and still returns the item with its card child. -/
theorem C4_card_outside_row_witness :
    ([Warning.mk "The parent of a \x27grid-item\x27 should be a \x27grid-row\x27 [layout.grid]"
        (.pos "doc" 5) "layout" "grid"] : List Warning) = [itemParentWarning "doc" 5] ∧
    ([Component.mk "grid-item" ["sd-col", "sd-d-flex"] [Component.mk "card" [] []]]
      : List Component).length = 1 ∧
    ∀ node ∈ ([Component.mk "grid-item" ["sd-col", "sd-d-flex"] [Component.mk "card" [] []]]
      : List Component), node.kind = "grid-item" ∧
      node.children = [Component.mk "card" [] []] :=
  C4_card_outside_row (fun _ _ => Component.mk "card" [] [])
    (Component.mk "grid-container" [] []) [] [] ["x"] "doc" 5
    [Warning.mk "The parent of a \x27grid-item\x27 should be a \x27grid-row\x27 [layout.grid]"
        (.pos "doc" 5) "layout" "grid"]
    [Component.mk "grid-item" ["sd-col", "sd-d-flex"] [Component.mk "card" [] []]]
    (by decide) rfl

/-- C9: the `link-type` validator accepts exactly `{url, any, ref, doc}` and
the `shadow` validator accepts exactly `{none, sm, md, lg}`; any other value
is rejected with a failure carrying the received value and the allowed
set. -/
theorem C9_choice_validators (s : String) :
    (s ∈ ["url", "any", "ref", "doc"] → link_type_choice s = .ok s) ∧
    (s ∉ ["url", "any", "ref", "doc"] →
      link_type_choice s = .error ⟨s, ["url", "any", "ref", "doc"]⟩) ∧
    (s ∈ ["none", "sm", "md", "lg"] → shadow_choice s = .ok s) ∧
    (s ∉ ["none", "sm", "md", "lg"] →
      shadow_choice s = .error ⟨s, ["none", "sm", "md", "lg"]⟩) := by
  refine ⟨?_, ?_, ?_, ?_⟩ <;> intro h <;> simp at h <;>
    simp [link_type_choice, shadow_choice, make_choice, h]

/-- C9 witness: `url` and `sm` are accepted; `other` and `xl` are rejected
with the received value and the allowed set. -/
theorem C9_choice_validators_witness :
    link_type_choice "url" = .ok "url" ∧
    link_type_choice "other" = .error ⟨"other", ["url", "any", "ref", "doc"]⟩ ∧
    shadow_choice "sm" = .ok "sm" ∧
    shadow_choice "xl" = .error ⟨"xl", ["none", "sm", "md", "lg"]⟩ :=
  ⟨(C9_choice_validators "url").1 (by decide),
   (C9_choice_validators "other").2.1 (by decide),
   (C9_choice_validators "sm").2.2.1 (by decide),
   (C9_choice_validators "xl").2.2.2 (by decide)⟩

end SphinxDesign
